import Mathlib

/-!
Verification of the route-finding UI component
(`src/frontend_Web/src/components/MapView.tsx`).

The component keeps React state (`routes`, `selectedRoute`, `estimatedTime`,
`estimatedCost`, ...) and exposes three operations: `getRoutes` (geocode the
two addresses and fetch three alternative routes), `handleRouteClick`
(select a route index) and `handleChooseRoute` (derive a time/cost estimate
from the selected route's geometry).

Embedding conventions:
* JavaScript numbers are modelled as exact rationals (`ℚ`); every numeric
  literal in the relevant code (0.1, 2, 10, coordinate values) is used only
  in the claims' own formulas, so exact arithmetic is faithful.
* Network calls are modelled by passing the (possible) responses as inputs:
  `none` stands for a failed HTTP request, `some v` for a response body `v`.
  `parseFloat` on the geocoder's `lat`/`lon` strings is the external
  boundary, so candidates carry their numeric values directly.
* A thrown-and-caught exception inside an operation makes the operation
  return the state unchanged (the `catch` blocks only log); a JavaScript
  `TypeError` that would escape is modelled by an `Option` result.
-/

/-- A coordinate pair. Internally the component stores `[latitude, longitude]`
tuples (`[number, number]` in the source). -/
abbrev Coord := ℚ × ℚ

/-- `interface Route { coords: [number, number][]; endCoords: [number, number] }` -/
structure Route where
  coords : List Coord
  endCoords : Coord
  deriving DecidableEq

/-- One entry of the Nominatim forward-geocoding response
(`interface NominatimSearchResponse { lat: string; lon: string }`,
with `parseFloat` applied at the boundary). -/
structure NominatimSearchResponse where
  lat : ℚ
  lon : ℚ
  deriving DecidableEq

/-- One route of an OSRM routing response: `geometry.coordinates` is an
ordered list of `(longitude, latitude)` pairs. -/
structure OSRMRoute where
  geometry : List (ℚ × ℚ)
  deriving DecidableEq

/-- `interface OSRMRouteResponse { routes: { geometry: { coordinates: ... } }[] }` -/
structure OSRMRouteResponse where
  routes : List OSRMRoute
  deriving DecidableEq

/-- The React state of the `MapView` component that the operations read and
write. `selectedRoute`, `estimatedTime` and `estimatedCost` are
`number | null` in the source, hence `Option` here. -/
structure MapViewState where
  userCoords : Coord
  userAddress : String
  destination : String
  routes : List Route
  selectedRoute : Option ℕ
  estimatedTime : Option ℚ
  estimatedCost : Option ℚ
  fullscreen : Bool
  deriving DecidableEq

/-- The initial React state: `useState` defaults
(`userCoords = [20.5937, 78.9629]`, empty strings, empty route list,
`null` selection and estimates, windowed display). -/
def initialState : MapViewState :=
  { userCoords := (205937/10000, 789629/10000)
    userAddress := ""
    destination := ""
    routes := []
    selectedRoute := none
    estimatedTime := none
    estimatedCost := none
    fullscreen := false }

/-- `getCoordinates(address)`: takes the Nominatim search response
(`none` = network failure), fails (`throw`) when the candidate list is empty
(`if (!res.data[0]) throw new Error('Invalid address')`), otherwise returns
`[parseFloat(res.data[0].lat), parseFloat(res.data[0].lon)]`. Both failure
paths are caught, logged and rethrown to the caller, hence `none`. -/
def getCoordinates (resp : Option (List NominatimSearchResponse)) : Option Coord :=
  match resp with
  | none => none
  | some data =>
    match data.head? with
    | none => none
    | some c => some (c.lat, c.lon)

/-- The body of one of the three route promises in `getRoutes`: given the
shared destination coordinate `endC` and the OSRM response for one
alternatives index (`none` = network failure), take `res.data.routes[0]`
(an empty `routes` array makes the promise reject with a `TypeError`,
hence `none`), swap each geometry pair `[lng, lat]` to `[lat, lng]`, and
pair the result with `endCoords = end`. -/
def buildRoute (endC : Coord) (resp : Option OSRMRouteResponse) : Option Route :=
  match resp with
  | none => none
  | some r =>
    match r.routes.head? with
    | none => none
    | some rt => some { coords := rt.geometry.map (fun p => (p.2, p.1)), endCoords := endC }

/-- `Promise.all(routePromises)` over `[0, 1, 2].map(...)`: all three routes
in request order, or failure as a whole if any promise rejects. -/
def fetchedRoutes (endC : Coord) (routeResp : ℕ → Option OSRMRouteResponse) :
    Option (List Route) :=
  ([0, 1, 2] : List ℕ).mapM (fun i => buildRoute endC (routeResp i))

/-- `getRoutes()`: resolve the start (`userAddress ? await getCoordinates(userAddress)
: userCoords` — the empty string is falsy), resolve the destination, fetch the
three alternatives and, on success, `setRoutes(fetchedRoutes)` and
`setSelectedRoute(null)`. Any failure is caught by the surrounding
`try/catch`, which only logs, so the state is returned unchanged.
`startResp`/`destResp` are the geocoder responses for the two addresses and
`routeResp i` is the OSRM response for alternatives index `i`. -/
def getRoutes (startResp destResp : Option (List NominatimSearchResponse))
    (routeResp : ℕ → Option OSRMRouteResponse) (s : MapViewState) : MapViewState :=
  match (if s.userAddress = "" then some s.userCoords else getCoordinates startResp) with
  | none => s
  | some _start =>
    match getCoordinates destResp with
    | none => s
    | some endC =>
      match fetchedRoutes endC routeResp with
      | none => s
      | some fetched => { s with routes := fetched, selectedRoute := none }

/-- `handleRouteClick(index)`: `setSelectedRoute(index)`, nothing else. -/
def handleRouteClick (index : ℕ) (s : MapViewState) : MapViewState :=
  { s with selectedRoute := some index }

/-- `handleChooseRoute()`: early return when `selectedRoute === null`;
otherwise `distance = routes[selectedRoute].coords.length * 0.1`,
`time = distance * 2`, `cost = distance * 10`, and the two estimates are set.
An out-of-bounds selection would dereference `undefined` and throw a
`TypeError` that escapes the handler, modelled by `none`. -/
def handleChooseRoute (s : MapViewState) : Option MapViewState :=
  match s.selectedRoute with
  | none => some s
  | some i =>
    match s.routes[i]? with
    | none => none
    | some r =>
      let distance : ℚ := (r.coords.length : ℚ) * (1/10)
      let time : ℚ := distance * 2
      let cost : ℚ := distance * 10
      some { s with estimatedTime := some time, estimatedCost := some cost }

/-- The user-interface events that can fire on the component, each carrying
the external data it depends on. A `click` event can only originate from a
polyline rendered by `routes.map((route, index) => ...)`, so its index is
always within the bounds of the current route list. -/
inductive Step : MapViewState → MapViewState → Prop
  | fetch (startResp destResp : Option (List NominatimSearchResponse))
      (routeResp : ℕ → Option OSRMRouteResponse) (s : MapViewState) :
      Step s (getRoutes startResp destResp routeResp s)
  | click (i : ℕ) (s : MapViewState) (h : i < s.routes.length) :
      Step s (handleRouteClick i s)
  | choose (s s' : MapViewState) (h : handleChooseRoute s = some s') :
      Step s s'
  | editAddress (a : String) (s : MapViewState) :
      Step s { s with userAddress := a }
  | editDestination (d : String) (s : MapViewState) :
      Step s { s with destination := d }
  | toggleFullscreen (s : MapViewState) :
      Step s { s with fullscreen := !s.fullscreen }
  | geolocate (c : Coord) (s : MapViewState) :
      Step s { s with userCoords := c }
  | reverseGeocode (a : String) (s : MapViewState) :
      Step s { s with userAddress := a }

/-- States the component can actually be in: the initial state and anything
reachable from it through the events above. -/
inductive Reachable : MapViewState → Prop
  | init : Reachable initialState
  | step {s s' : MapViewState} : Reachable s → Step s s' → Reachable s'

/-! ## Helper lemmas -/

/-- `Promise.all` over the three route promises, unfolded. -/
lemma fetchedRoutes_eq (endC : Coord) (rr : ℕ → Option OSRMRouteResponse) :
    fetchedRoutes endC rr =
      match buildRoute endC (rr 0), buildRoute endC (rr 1), buildRoute endC (rr 2) with
      | some r0, some r1, some r2 => some [r0, r1, r2]
      | _, _, _ => none := by
  rcases h0 : buildRoute endC (rr 0) with _ | r0 <;>
    rcases h1 : buildRoute endC (rr 1) with _ | r1 <;>
      rcases h2 : buildRoute endC (rr 2) with _ | r2 <;>
        simp [fetchedRoutes, List.mapM, List.mapM.loop, h0, h1, h2]

/-- A successfully built route carries the destination coordinate it was
built with. -/
lemma buildRoute_endCoords (endC : Coord) (resp : Option OSRMRouteResponse)
    (r : Route) (h : buildRoute endC resp = some r) : r.endCoords = endC := by
  rcases resp with _ | rsp
  · simp [buildRoute] at h
  · rcases hh : rsp.routes.head? with _ | rt
    · simp [buildRoute, hh] at h
    · simp [buildRoute, hh] at h
      rw [← h]

/-- If any of the three routing requests fails, the whole `Promise.all` fails. -/
lemma fetchedRoutes_of_respFail (endC : Coord) (rr : ℕ → Option OSRMRouteResponse)
    (i : ℕ) (hi : i < 3) (h : rr i = none) : fetchedRoutes endC rr = none := by
  rw [fetchedRoutes_eq]
  interval_cases i <;> simp_all [buildRoute]

/-- Full case analysis of `getRoutes`: either all network steps succeed and the
state gets the three routes (in request order) with the selection cleared, or
the state is returned unchanged. -/
lemma getRoutes_cases (startResp destResp : Option (List NominatimSearchResponse))
    (routeResp : ℕ → Option OSRMRouteResponse) (s : MapViewState) :
    (∃ endC r0 r1 r2,
      getCoordinates destResp = some endC ∧
      buildRoute endC (routeResp 0) = some r0 ∧
      buildRoute endC (routeResp 1) = some r1 ∧
      buildRoute endC (routeResp 2) = some r2 ∧
      getRoutes startResp destResp routeResp s =
        { s with routes := [r0, r1, r2], selectedRoute := none }) ∨
    getRoutes startResp destResp routeResp s = s := by
  rcases hst : (if s.userAddress = "" then some s.userCoords else getCoordinates startResp)
    with _ | st
  · right
    simp [getRoutes, hst]
  · rcases hend : getCoordinates destResp with _ | endC
    · right
      simp [getRoutes, hst, hend]
    · rcases hf : fetchedRoutes endC routeResp with _ | fetched
      · right
        simp [getRoutes, hst, hend, hf]
      · left
        rw [fetchedRoutes_eq] at hf
        rcases h0 : buildRoute endC (routeResp 0) with _ | r0 <;>
          rcases h1 : buildRoute endC (routeResp 1) with _ | r1 <;>
            rcases h2 : buildRoute endC (routeResp 2) with _ | r2 <;>
              simp [h0, h1, h2] at hf
        refine ⟨endC, r0, r1, r2, rfl, h0, h1, h2, ?_⟩
        simp [getRoutes, hst, hend, fetchedRoutes_eq, h0, h1, h2, hf]

/-- The selection, if set, indexes into the current route list. -/
def SelectionValid (s : MapViewState) : Prop :=
  ∀ i : ℕ, s.selectedRoute = some i → i < s.routes.length

/-- `handleChooseRoute`, when it returns, only writes the two estimates:
the route list and the selection are unchanged. -/
lemma handleChooseRoute_frame {s s' : MapViewState}
    (h : handleChooseRoute s = some s') :
    s'.routes = s.routes ∧ s'.selectedRoute = s.selectedRoute ∧
      s'.userCoords = s.userCoords ∧ s'.userAddress = s.userAddress ∧
      s'.destination = s.destination ∧ s'.fullscreen = s.fullscreen := by
  rcases hsel : s.selectedRoute with _ | i
  · simp [handleChooseRoute, hsel] at h
    subst h
    exact ⟨rfl, hsel, rfl, rfl, rfl, rfl⟩
  · rcases hr : s.routes[i]? with _ | r
    · simp [handleChooseRoute, hsel, hr] at h
    · simp [handleChooseRoute, hsel, hr] at h
      subst h
      exact ⟨rfl, rfl, rfl, rfl, rfl, rfl⟩

/-- Every event preserves validity of the selection. -/
lemma step_preserves_selectionValid {s s' : MapViewState}
    (hs : SelectionValid s) (hstep : Step s s') : SelectionValid s' := by
  cases hstep with
  | fetch startResp destResp routeResp s =>
    rcases getRoutes_cases startResp destResp routeResp s with
      ⟨endC, r0, r1, r2, _, _, _, _, heq⟩ | heq
    · intro i hi
      rw [heq] at hi
      simp at hi
    · rwa [heq]
  | click i s h =>
    intro j hj
    simp [handleRouteClick] at hj
    simpa [handleRouteClick, ← hj] using h
  | choose s s' h =>
    obtain ⟨hroutes, hsel, -⟩ := handleChooseRoute_frame h
    intro j hj
    rw [hroutes]
    exact hs j (hsel ▸ hj)
  | editAddress a s => intro j hj; exact hs j hj
  | editDestination d s => intro j hj; exact hs j hj
  | toggleFullscreen s => intro j hj; exact hs j hj
  | geolocate c s => intro j hj; exact hs j hj
  | reverseGeocode a s => intro j hj; exact hs j hj

/-- In every reachable state the selection indexes into the route list. -/
lemma reachable_selectionValid {s : MapViewState} (h : Reachable s) :
    SelectionValid s := by
  induction h with
  | init => intro i hi; simp [initialState] at hi
  | step _ hstep ih => exact step_preserves_selectionValid ih hstep

/-! ## Concrete sample data for exercising the theorems -/

/-- A concrete OSRM response: one route with two geometry points, given as
`(longitude, latitude)` pairs. -/
def sampleOSRM : OSRMRouteResponse := ⟨[⟨[(77, 28), (78, 29)]⟩]⟩

/-- A concrete geocoder response for the destination: one candidate at
latitude 28, longitude 77. -/
def sampleDestResp : Option (List NominatimSearchResponse) := some [⟨28, 77⟩]

/-- All three routing requests answered with `sampleOSRM`. -/
def sampleRouteResp : ℕ → Option OSRMRouteResponse := fun _ => some sampleOSRM

/-- The route `buildRoute` produces from `sampleOSRM` and destination
`(28, 77)`: the geometry pairs swapped to `(latitude, longitude)`. -/
def sampleRouteValue : Route := ⟨[(28, 77), (29, 78)], (28, 77)⟩

/-- The state after a successful fetch from the initial state. -/
def sampleFetched : MapViewState :=
  getRoutes none sampleDestResp sampleRouteResp initialState

/-- The state after additionally clicking route index 1. -/
def sampleClicked : MapViewState := handleRouteClick 1 sampleFetched

/-! ## The claims -/

/-- C1: confirming a selection derives the estimate from the point count of
the selected route's geometry — with `P` points, the estimated duration is
`P * 0.1 * 2` and the estimated cost is `P * 0.1 * 10`; no true distance is
involved. -/
theorem chooseRoute_estimate_from_point_count (s : MapViewState) (i : ℕ) (r : Route)
    (hsel : s.selectedRoute = some i) (hr : s.routes[i]? = some r) :
    handleChooseRoute s = some { s with
      estimatedTime := some ((r.coords.length : ℚ) * (1/10) * 2),
      estimatedCost := some ((r.coords.length : ℚ) * (1/10) * 10) } := by
  simp [handleChooseRoute, hsel, hr]

/-- C1 witness: choosing the selected two-point sample route yields duration
`2 * 0.1 * 2` and cost `2 * 0.1 * 10`. -/
theorem chooseRoute_estimate_witness :
    handleChooseRoute (handleRouteClick 0 sampleFetched) =
      some { handleRouteClick 0 sampleFetched with
        estimatedTime := some ((2 : ℚ) * (1/10) * 2),
        estimatedCost := some ((2 : ℚ) * (1/10) * 10) } := by
  have h := chooseRoute_estimate_from_point_count
    (handleRouteClick 0 sampleFetched) 0 sampleRouteValue rfl rfl
  simpa [sampleRouteValue] using h

/-- C2: a route fetch either installs exactly three routes, one per
alternatives index 0, 1, 2 in that requested order, or fails as a whole with
the state unchanged — never a one- or two-entry route list. -/
theorem getRoutes_three_or_nothing (startResp destResp : Option (List NominatimSearchResponse))
    (routeResp : ℕ → Option OSRMRouteResponse) (s : MapViewState) :
    (∃ endC r0 r1 r2,
      getCoordinates destResp = some endC ∧
      buildRoute endC (routeResp 0) = some r0 ∧
      buildRoute endC (routeResp 1) = some r1 ∧
      buildRoute endC (routeResp 2) = some r2 ∧
      getRoutes startResp destResp routeResp s =
        { s with routes := [r0, r1, r2], selectedRoute := none }) ∨
    getRoutes startResp destResp routeResp s = s :=
  getRoutes_cases startResp destResp routeResp s

/-- C3: a route fetch either leaves the state unchanged or resets the
selection to `none`; consequently, in every reachable state the selection,
if set, is a valid index into the current route list. -/
theorem fetch_resets_selection_and_selection_valid :
    (∀ startResp destResp (routeResp : ℕ → Option OSRMRouteResponse) (s : MapViewState),
        getRoutes startResp destResp routeResp s = s ∨
        (getRoutes startResp destResp routeResp s).selectedRoute = none) ∧
    (∀ s : MapViewState, Reachable s → SelectionValid s) := by
  constructor
  · intro startResp destResp routeResp s
    rcases getRoutes_cases startResp destResp routeResp s with
      ⟨endC, r0, r1, r2, -, -, -, -, heq⟩ | heq
    · right
      rw [heq]
    · left
      exact heq
  · intro s h
    exact reachable_selectionValid h

/-- C3 witness: a concrete successful fetch clears the selection, and in the
reachable state obtained by then clicking route 1 the selection index 1 is
within the three-entry route list. -/
theorem fetch_resets_selection_witness :
    (getRoutes none sampleDestResp sampleRouteResp initialState = initialState ∨
      (getRoutes none sampleDestResp sampleRouteResp initialState).selectedRoute = none) ∧
      1 < sampleClicked.routes.length := by
  refine ⟨fetch_resets_selection_and_selection_valid.1
    none sampleDestResp sampleRouteResp initialState, ?_⟩
  have hreach : Reachable sampleClicked :=
    Reachable.step
      (Reachable.step Reachable.init
        (Step.fetch none sampleDestResp sampleRouteResp initialState))
      (Step.click 1 sampleFetched (by decide))
  exact fetch_resets_selection_and_selection_valid.2 sampleClicked hreach 1 rfl

/-- C4 counterexample: `handleRouteClick` performs no bounds check — on the
initial state, whose route list is empty, clicking index 5 still sets the
selection to 5, so the out-of-bounds select is not rejected. -/
theorem handleRouteClick_counterexample :
    (handleRouteClick 5 initialState).selectedRoute = some 5 ∧
      initialState.routes.length = 0 :=
  ⟨rfl, rfl⟩

/-- C4 amended: `handleRouteClick i` unconditionally sets the selection to
`i` (leaving the route list unchanged) with no bounds check; in-bounds
selection is guaranteed only by its call sites, which attach click handlers
just to the polylines at indices of the current route list. -/
theorem handleRouteClick_sets_selection (i : ℕ) (s : MapViewState) :
    (handleRouteClick i s).selectedRoute = some i ∧
      (handleRouteClick i s).routes = s.routes :=
  ⟨rfl, rfl⟩

/-- C5 counterexample: with an estimate of 5 minutes / 7 units on display,
clicking route 1 leaves both estimate fields set — selecting does not clear
the previously displayed estimate. -/
theorem handleRouteClick_keeps_estimate :
    (handleRouteClick 1
        { initialState with estimatedTime := some 5, estimatedCost := some 7 }).estimatedTime
        = some 5 ∧
      (handleRouteClick 1
        { initialState with estimatedTime := some 5, estimatedCost := some 7 }).estimatedCost
        = some 7 :=
  ⟨rfl, rfl⟩

/-- C5 amended: selecting a route sets the selection and leaves the
previously displayed estimate untouched; the estimate changes only when the
selection is confirmed via `handleChooseRoute`. -/
theorem handleRouteClick_preserves_estimates (i : ℕ) (s : MapViewState) :
    (handleRouteClick i s).selectedRoute = some i ∧
      (handleRouteClick i s).estimatedTime = s.estimatedTime ∧
      (handleRouteClick i s).estimatedCost = s.estimatedCost :=
  ⟨rfl, rfl, rfl⟩

/-- C6: any failure during a route fetch — start geocoding failing while a
start address is set, destination geocoding failing, or any of the three
routing requests failing — aborts the operation with the entire state (route
list, selection, estimates, everything) unchanged; the error is caught. -/
theorem getRoutes_failure_atomic (startResp destResp : Option (List NominatimSearchResponse))
    (routeResp : ℕ → Option OSRMRouteResponse) (s : MapViewState)
    (h : (s.userAddress ≠ "" ∧ getCoordinates startResp = none) ∨
         getCoordinates destResp = none ∨
         ∃ i : ℕ, i < 3 ∧ routeResp i = none) :
    getRoutes startResp destResp routeResp s = s := by
  rcases h with ⟨hne, hsf⟩ | hdf | ⟨i, hi, hrf⟩
  · simp [getRoutes, if_neg hne, hsf]
  · rcases hst : (if s.userAddress = "" then some s.userCoords else getCoordinates startResp)
      with _ | st
    · simp [getRoutes, hst]
    · simp [getRoutes, hst, hdf]
  · rcases hst : (if s.userAddress = "" then some s.userCoords else getCoordinates startResp)
      with _ | st
    · simp [getRoutes, hst]
    · rcases hend : getCoordinates destResp with _ | endC
      · simp [getRoutes, hst, hend]
      · simp [getRoutes, hst, hend, fetchedRoutes_of_respFail endC routeResp i hi hrf]

/-- C6 witness: an empty destination candidate list ("Invalid address")
leaves the initial state untouched. -/
theorem getRoutes_failure_atomic_witness :
    getRoutes none (some []) (fun _ => none) initialState = initialState :=
  getRoutes_failure_atomic none (some []) (fun _ => none) initialState
    (Or.inr (Or.inl rfl))

/-- C7 counterexample: `getCoordinates` performs no range validation — a
geocoder response whose first candidate has latitude 999 is returned as-is,
even though 999 lies outside [-90, 90]. -/
theorem getCoordinates_counterexample :
    getCoordinates (some [⟨999, 0⟩]) = some (999, 0) ∧ ¬((999 : ℚ) ≤ 90) :=
  ⟨rfl, by norm_num⟩

/-- C7 amended: on a successful resolution `getCoordinates` returns exactly
the first candidate's coordinates, so the result lies in the valid
latitude/longitude ranges precisely when the service's first candidate
does — the code itself adds no range check. -/
theorem getCoordinates_range (data : List NominatimSearchResponse)
    (c : NominatimSearchResponse) (h : data.head? = some c)
    (hlat : -90 ≤ c.lat ∧ c.lat ≤ 90) (hlon : -180 ≤ c.lon ∧ c.lon ≤ 180) :
    getCoordinates (some data) = some (c.lat, c.lon) ∧
      -90 ≤ c.lat ∧ c.lat ≤ 90 ∧ -180 ≤ c.lon ∧ c.lon ≤ 180 :=
  ⟨by simp [getCoordinates, h], hlat.1, hlat.2, hlon.1, hlon.2⟩

/-- C7 witness: a candidate at (28, 77) is returned unchanged and is within
range. -/
theorem getCoordinates_range_witness :
    getCoordinates (some [⟨28, 77⟩]) = some (28, 77) ∧
      -90 ≤ (28 : ℚ) ∧ (28 : ℚ) ≤ 90 ∧ -180 ≤ (77 : ℚ) ∧ (77 : ℚ) ≤ 180 :=
  getCoordinates_range [⟨28, 77⟩] ⟨28, 77⟩ rfl (by norm_num) (by norm_num)

/-- C8: the stored route's coordinate list has the response geometry's points
in the same order, with each `(longitude, latitude)` pair swapped to
`(latitude, longitude)`. -/
theorem route_coords_swapped (endC : Coord) (resp : OSRMRouteResponse)
    (rt : OSRMRoute) (h : resp.routes.head? = some rt) :
    ∃ r : Route, buildRoute endC (some resp) = some r ∧
      r.coords.length = rt.geometry.length ∧
      ∀ (i : ℕ) (hi : i < rt.geometry.length) (hc : i < r.coords.length),
        r.coords.get ⟨i, hc⟩ =
          ((rt.geometry.get ⟨i, hi⟩).2, (rt.geometry.get ⟨i, hi⟩).1) := by
  refine ⟨{ coords := rt.geometry.map (fun p => (p.2, p.1)), endCoords := endC },
    ?_, ?_, ?_⟩
  · simp [buildRoute, h]
  · simp
  · intro i hi hc
    simp

/-- C8 witness: the two-point sample geometry `[(77, 28), (78, 29)]` is
stored as `[(28, 77), (29, 78)]`. -/
theorem route_coords_swapped_witness :
    ∃ r : Route, buildRoute (28, 77) (some sampleOSRM) = some r ∧
      r.coords.length = 2 := by
  obtain ⟨r, hr, hl, -⟩ :=
    route_coords_swapped (28, 77) sampleOSRM ⟨[(77, 28), (78, 29)]⟩ rfl
  exact ⟨r, hr, by simpa using hl⟩

/-- C9: with no selection, confirming is a no-op — `handleChooseRoute`
returns the state unchanged, estimates included. -/
theorem chooseRoute_noop_without_selection (s : MapViewState)
    (h : s.selectedRoute = none) : handleChooseRoute s = some s := by
  simp [handleChooseRoute, h]

/-- C9 witness: confirming on the initial state (no selection) changes
nothing. -/
theorem chooseRoute_noop_witness :
    handleChooseRoute initialState = some initialState :=
  chooseRoute_noop_without_selection initialState rfl

/-- C10: on a successful fetch the installed route list is exactly the
fetched one and every route in it carries the same `endCoords`, namely the
coordinate obtained by geocoding the destination address. -/
theorem routes_share_destination (startResp destResp : Option (List NominatimSearchResponse))
    (routeResp : ℕ → Option OSRMRouteResponse) (s : MapViewState)
    (endC : Coord) (rs : List Route)
    (hstart : s.userAddress = "" ∨ ∃ c, getCoordinates startResp = some c)
    (hend : getCoordinates destResp = some endC)
    (hfetch : fetchedRoutes endC routeResp = some rs) :
    (getRoutes startResp destResp routeResp s).routes = rs ∧
      ∀ r ∈ rs, r.endCoords = endC := by
  constructor
  · by_cases hA : s.userAddress = ""
    · simp [getRoutes, hA, hend, hfetch]
    · rcases hstart with he | ⟨c, hc⟩
      · exact absurd he hA
      · simp [getRoutes, hA, hc, hend, hfetch]
  · rw [fetchedRoutes_eq] at hfetch
    rcases h0 : buildRoute endC (routeResp 0) with _ | r0 <;>
      rcases h1 : buildRoute endC (routeResp 1) with _ | r1 <;>
        rcases h2 : buildRoute endC (routeResp 2) with _ | r2 <;>
          simp [h0, h1, h2] at hfetch
    subst hfetch
    intro r hr
    simp at hr
    rcases hr with rfl | rfl | rfl
    · exact buildRoute_endCoords _ _ _ h0
    · exact buildRoute_endCoords _ _ _ h1
    · exact buildRoute_endCoords _ _ _ h2

/-- C10 witness: the concrete successful fetch installs three copies of the
sample route, each carrying the geocoded destination (28, 77). -/
theorem routes_share_destination_witness :
    (getRoutes none sampleDestResp sampleRouteResp initialState).routes =
      [sampleRouteValue, sampleRouteValue, sampleRouteValue] ∧
      ∀ r ∈ [sampleRouteValue, sampleRouteValue, sampleRouteValue],
        r.endCoords = ((28 : ℚ), (77 : ℚ)) :=
  routes_share_destination none sampleDestResp sampleRouteResp initialState
    (28, 77) [sampleRouteValue, sampleRouteValue, sampleRouteValue]
    (Or.inl rfl) rfl rfl
